import Mathlib

/-!
Shallow embedding of `src/pkg/platform/src/components/aws/realtime-lambda-subscriber.ts`
(the `RealtimeLambdaSubscriber` composite component) together with the deferred-value
layer it is built on, and proofs of the specification's claims about it.

Deferred (asynchronously resolved) values are modelled by their declaration-time
structure: the eventual resolved value together with the set of upstream resource
identities the value depends on.  Identities are strings; dependency sets are
`Finset String`.
-/

/-- A deferred value: the eventual resolved value plus the set of identities of the
upstream resource nodes it depends on (Pulumi `Output<T>`). -/
structure DeferredValue (α : Type) where
  value : α
  deps : Finset String
deriving DecidableEq

instance {α : Type} [Inhabited α] : Inhabited (DeferredValue α) := ⟨⟨default, ∅⟩⟩

/-- A caller-supplied input: either a plain value or an already-deferred one
(Pulumi `Input<T>`). -/
inductive Input (α : Type) where
  | plain (v : α)
  | deferred (d : DeferredValue α)
deriving DecidableEq

/-- Lift an input to a deferred value: a plain value gets an empty dependency set, an
already-deferred value passes through unchanged (Pulumi `output(...)`). -/
def output {α : Type} : Input α → DeferredValue α
  | Input.plain v => ⟨v, ∅⟩
  | Input.deferred d => d

/-- One segment of an interpolated string template: a literal piece or a deferred part. -/
inductive Segment where
  | lit (s : String)
  | part (d : DeferredValue String)
deriving DecidableEq

/-- The text a segment contributes once every part has resolved. -/
def Segment.text : Segment → String
  | Segment.lit s => s
  | Segment.part d => d.value

/-- The dependency set a segment contributes: empty for a literal, the part's own set
for a deferred part. -/
def Segment.deps : Segment → Finset String
  | Segment.lit _ => ∅
  | Segment.part d => d.deps

/-- String interpolation over deferred parts (Pulumi `interpolate` tagged template):
the eventual value is the concatenation of all segments' resolved text, and the
dependency set is the union of all parts' dependency sets. -/
def interpolate (segs : List Segment) : DeferredValue String :=
  ⟨String.join (segs.map Segment.text),
   segs.foldr (fun s acc => Segment.deps s ∪ acc) ∅⟩

/-- The `iot` argument: a reference to the Realtime component, carrying its name. -/
structure IotArgs where
  name : Input String

/-- Projection `iot.name` on a deferred `IotArgs`: the inner input is lifted and its
dependency set merged with the outer one (Pulumi lifted property access). -/
def iotName (iot : DeferredValue IotArgs) : DeferredValue String :=
  ⟨(output iot.value.name).value, iot.deps ∪ (output iot.value.name).deps⟩

/-- Modelled from the spec: `FunctionArgs` lives in
`src/pkg/platform/src/components/aws/function.ts`, which is not under `src/`.  Only the
handler entry point matters here. -/
structure FunctionArgs where
  handler : String

/-- A subscriber definition: a handler entry string or full function args
(`Input<string | FunctionArgs>` in the source). -/
inductive SubscriberDef where
  | entry (s : String)
  | args (a : FunctionArgs)

/-- A `lambda` action of an IoT topic rule: the ARN of the function to invoke. -/
structure LambdaAction where
  functionArn : DeferredValue String
deriving DecidableEq

/-- Draft construction arguments of the IoT topic rule child
(`aws.iot.TopicRuleArgs` as used by `createRule`). -/
structure TopicRuleArgs where
  sqlVersion : String
  sql : DeferredValue String
  enabled : Bool
  lambdas : List LambdaAction
deriving DecidableEq

instance : Inhabited TopicRuleArgs := ⟨⟨"", default, true, []⟩⟩

/-- The per-child transform hook map (`args.transform` of `RealtimeSubscriberArgs`):
only the topic-rule hook is consulted by this composite. -/
structure TransformMap where
  topicRule : Option (TopicRuleArgs → TopicRuleArgs)

/-- External input of the composite (`Args` in the source).  `subscriber` is required
by the source's type; it is modelled as an `Option` so that the missing-required-input
failure path can be stated. -/
structure Args where
  iot : Input IotArgs
  subscriber : Option (Input SubscriberDef)
  filter : Option (Input String)
  transform : Option TransformMap

/-- Modelled from the spec: the `transform` helper is defined in
`src/pkg/platform/src/components/component.ts`, which is not under `src/`.  Per §4.2,
with no hook the defaults are returned unchanged; otherwise the hook produces a
candidate from the defaults and the composite-owned fields — here the wired `sql`
statement and the `lambdas` linkage — are re-asserted from the defaults on top of the
candidate, while every other field comes from the candidate. -/
def transform (hook : Option (TopicRuleArgs → TopicRuleArgs))
    (defaults : TopicRuleArgs) : TopicRuleArgs :=
  match hook with
  | none => defaults
  | some h =>
      let candidate := h defaults
      { candidate with sql := defaults.sql, lambdas := defaults.lambdas }

/-- The declared handler function child (the node behind `Function`). -/
structure FunctionResource where
  identity : String
  parent : String
  description : DeferredValue String
  dependsOn : Finset String
deriving DecidableEq

instance : Inhabited FunctionResource := ⟨⟨"", "", default, ∅⟩⟩

/-- Modelled from the spec: the provisioning engine resolves a declared function's ARN
after provisioning; at declaration time it is a deferred value depending on the
function's own identity. -/
def FunctionResource.arn (f : FunctionResource) : DeferredValue String :=
  ⟨"arn:" ++ f.identity, {f.identity}⟩

/-- Modelled from the spec: the engine-resolved remote name of a declared function, a
deferred value depending on the function's own identity. -/
def FunctionResource.name (f : FunctionResource) : DeferredValue String :=
  ⟨"name:" ++ f.identity, {f.identity}⟩

/-- The declared IoT topic rule child (`aws.iot.TopicRule`). -/
structure TopicRule where
  identity : String
  parent : String
  args : TopicRuleArgs
  dependsOn : Finset String
deriving DecidableEq

instance : Inhabited TopicRule := ⟨⟨"", "", default, ∅⟩⟩

/-- Modelled from the spec: the engine-resolved ARN of a declared topic rule, a
deferred value depending on the rule's own identity. -/
def TopicRule.arn (r : TopicRule) : DeferredValue String :=
  ⟨"arn:" ++ r.identity, {r.identity}⟩

/-- Draft construction arguments of the lambda permission child
(`aws.lambda.PermissionArgs` as used by `createPermission`). -/
structure PermissionArgs where
  action : String
  function : DeferredValue String
  principal : String
  sourceArn : DeferredValue String
deriving DecidableEq

instance : Inhabited PermissionArgs := ⟨⟨"", default, "", default⟩⟩

/-- The declared lambda permission child (`aws.lambda.Permission`). -/
structure Permission where
  identity : String
  parent : String
  args : PermissionArgs
  dependsOn : Finset String
deriving DecidableEq

instance : Inhabited Permission := ⟨⟨"", "", default, ∅⟩⟩

/-- Union of the dependency sets of the deferred ARNs in a list of lambda actions. -/
def lambdasDeps (ls : List LambdaAction) : Finset String :=
  ls.foldr (fun l acc => l.functionArn.deps ∪ acc) ∅

/-- The dependency set embedded in a topic-rule draft: the sql's dependencies union
those of every lambda action's function ARN. -/
def TopicRuleArgs.deps (a : TopicRuleArgs) : Finset String :=
  a.sql.deps ∪ lambdasDeps a.lambdas

/-- The dependency set embedded in a permission draft: the deferred `function` and
`sourceArn` fields contribute; the plain `action` and `principal` strings do not. -/
def PermissionArgs.deps (a : PermissionArgs) : Finset String :=
  a.function.deps ∪ a.sourceArn.deps

/-- Modelled from the spec: declaring a topic rule hands the draft to the engine with
a dependency set that is the union of the draft's embedded dependencies and any
explicit dependencies (§4.3); the source passes no explicit dependencies. -/
def declareTopicRule (identity : String) (a : TopicRuleArgs) (parent : String)
    (explicitDeps : Finset String) : TopicRule :=
  ⟨identity, parent, a, a.deps ∪ explicitDeps⟩

/-- Modelled from the spec: declaring a lambda permission, analogous to
`declareTopicRule`. -/
def declarePermission (identity : String) (a : PermissionArgs) (parent : String)
    (explicitDeps : Finset String) : Permission :=
  ⟨identity, parent, a, a.deps ∪ explicitDeps⟩

/-- Modelled from the spec: `FunctionResource.fromDefinition` lives in
`src/pkg/platform/src/components/aws/function.ts`, which is not under `src/`.  Per
§4.4/§7 it validates the required subscriber definition eagerly at declaration time,
failing with an error that names the missing field before any child is declared;
otherwise it declares the handler function node whose dependency set is the union of
the dependencies embedded in the definition and the merged description. -/
def FunctionResource.fromDefinition (identity : String)
    (definition : Option (Input SubscriberDef))
    (description : DeferredValue String) (parent : String) : Except String FunctionResource :=
  match definition with
  | none => Except.error "subscriber is required"
  | some d => Except.ok ⟨identity, parent, description,
      (output d).deps ∪ description.deps⟩

/-- `normalizeFilter` from the source: `output(args.filter ?? "#")`. -/
def normalizeFilter (args : Args) : DeferredValue String :=
  output (args.filter.getD (Input.plain "#"))

/-- The composite's own defaults for the topic-rule draft, from `createRule`:
version, wired sql over the filter, enabled flag, and the lambda action wired to the
handler's ARN. -/
def ruleDefaults (filter : DeferredValue String) (fn : FunctionResource) : TopicRuleArgs :=
  { sqlVersion := "2016-03-23"
  , sql := interpolate
      [Segment.lit "SELECT * FROM '", Segment.part filter, Segment.lit "'"]
  , enabled := true
  , lambdas := [⟨fn.arn⟩] }

/-- The permission draft from `createPermission`: fixed action and principal, the
handler's name and the rule's ARN; no transform is applied to it. -/
def permissionDefaults (fn : FunctionResource) (rule : TopicRule) : PermissionArgs :=
  { action := "lambda:InvokeFunction"
  , function := fn.name
  , principal := "iot.amazonaws.com"
  , sourceArn := rule.arn }

/-- A child resource node of the composite, for the declared-children list. -/
inductive ChildNode where
  | function (f : FunctionResource)
  | rule (r : TopicRule)
  | permission (p : Permission)
deriving DecidableEq

/-- The identity of a child node. -/
def ChildNode.identity : ChildNode → String
  | ChildNode.function f => f.identity
  | ChildNode.rule r => r.identity
  | ChildNode.permission p => p.identity

/-- The constructed composite: its name and the three stored child references
(`this.fn`, `this.rule`, `this.permission`), assigned once at construction. -/
structure RealtimeLambdaSubscriber where
  name : String
  fn : FunctionResource
  rule : TopicRule
  permission : Permission

instance : Inhabited RealtimeLambdaSubscriber := ⟨⟨"", default, default, default⟩⟩

/-- `createFunction` from the source: declare the handler function from the subscriber
definition, with the interpolated description over `iot.name` and the filter. -/
def createFunction (name : String) (args : Args) : Except String FunctionResource :=
  FunctionResource.fromDefinition (name ++ "Handler") args.subscriber
    (interpolate
      [Segment.lit "Subscribed to ", Segment.part (iotName (output args.iot)),
       Segment.lit " on ", Segment.part (normalizeFilter args)]) name

/-- `createRule` from the source: declare the topic rule under the composite's name,
with the caller's topic-rule transform hook applied over the composite's defaults. -/
def createRule (name : String) (args : Args) (fn : FunctionResource) : TopicRule :=
  declareTopicRule (name ++ "Rule")
    (transform (args.transform.bind TransformMap.topicRule)
      (ruleDefaults (normalizeFilter args) fn)) name ∅

/-- `createPermission` from the source: declare the invocation permission wired to the
handler's name and the rule's ARN; no transform hook is consulted. -/
def createPermission (name : String) (fn : FunctionResource) (rule : TopicRule) :
    Permission :=
  declarePermission (name ++ "Permission") (permissionDefaults fn rule) name ∅

/-- The constructor of `RealtimeLambdaSubscriber`: normalizes the filter, declares the
handler function, the topic rule (transform applied over the composite's defaults) and
the permission, in that order.  The first component of the result is the list of child
nodes declared before any failure (empty when validation fails); the second is the
constructed composite or the validation error. -/
def construct (name : String) (args : Args) :
    List ChildNode × Except String RealtimeLambdaSubscriber :=
  match createFunction name args with
  | Except.error e => ([], Except.error e)
  | Except.ok fn =>
      let rule := createRule name args fn
      let permission := createPermission name fn rule
      ([ChildNode.function fn, ChildNode.rule rule, ChildNode.permission permission],
       Except.ok ⟨name, fn, rule, permission⟩)

/-- The `nodes` getter: the published output mapping, a fixed association list from
the documented keys to the stored child handles. -/
def RealtimeLambdaSubscriber.nodes (self : RealtimeLambdaSubscriber) :
    List (String × ChildNode) :=
  [("function", ChildNode.function self.fn),
   ("permission", ChildNode.permission self.permission),
   ("rule", ChildNode.rule self.rule)]

/-- Concrete input fixture: plain iot reference, handler-entry subscriber, no filter,
no transform. -/
def exampleArgs : Args :=
  { iot := Input.plain ⟨Input.plain "MyRealtime"⟩
  , subscriber := some (Input.plain (SubscriberDef.entry "handler.entry"))
  , filter := none
  , transform := none }

/-- Fixture with an explicit plain filter. -/
def exampleArgsFiltered : Args :=
  { iot := Input.plain ⟨Input.plain "MyRealtime"⟩
  , subscriber := some (Input.plain (SubscriberDef.entry "handler.entry"))
  , filter := some (Input.plain "devices/+/status")
  , transform := none }

/-- An adversarial transform hook that tries to overwrite every field of the
topic-rule draft, including the composite-owned `sql` and `lambdas`. -/
def adversarialHook : TopicRuleArgs → TopicRuleArgs := fun _ =>
  { sqlVersion := "9999"
  , sql := ⟨"SELECT nothing", {"attacker"}⟩
  , enabled := false
  , lambdas := [] }

/-- Fixture with the adversarial topic-rule hook installed. -/
def exampleArgsHooked : Args :=
  { iot := Input.plain ⟨Input.plain "MyRealtime"⟩
  , subscriber := some (Input.plain (SubscriberDef.entry "handler.entry"))
  , filter := none
  , transform := some ⟨some adversarialHook⟩ }

/-- Fixture with the required subscriber definition missing. -/
def exampleArgsMissing : Args :=
  { iot := Input.plain ⟨Input.plain "MyRealtime"⟩
  , subscriber := none
  , filter := none
  , transform := none }

/-- The composite built from `exampleArgs`. -/
def builtPlain : RealtimeLambdaSubscriber :=
  ((construct "My" exampleArgs).2).toOption.getD default

/-- The composite built from `exampleArgsFiltered`. -/
def builtFiltered : RealtimeLambdaSubscriber :=
  ((construct "My" exampleArgsFiltered).2).toOption.getD default

/-- The composite built from `exampleArgsHooked`. -/
def builtHooked : RealtimeLambdaSubscriber :=
  ((construct "My" exampleArgsHooked).2).toOption.getD default

/-! Helper lemmas. -/

/-- Inversion for `createFunction`: success forces a present subscriber definition and
determines the declared handler node. -/
theorem createFunction_ok_inv (name : String) (args : Args) (fn : FunctionResource)
    (h : createFunction name args = Except.ok fn) :
    ∃ d, args.subscriber = some d ∧
      fn = ⟨name ++ "Handler", name,
        interpolate
          [Segment.lit "Subscribed to ", Segment.part (iotName (output args.iot)),
           Segment.lit " on ", Segment.part (normalizeFilter args)],
        (output d).deps ∪
          (interpolate
            [Segment.lit "Subscribed to ", Segment.part (iotName (output args.iot)),
             Segment.lit " on ", Segment.part (normalizeFilter args)]).deps⟩ := by
  unfold createFunction FunctionResource.fromDefinition at h
  cases hs : args.subscriber with
  | none => rw [hs] at h; simp at h
  | some d =>
      rw [hs] at h
      simp at h
      exact ⟨d, rfl, h.symm⟩

/-- Inversion for `construct`: a successfully constructed composite is made of the
three children declared by `createFunction`, `createRule` and `createPermission`, and
the declared-children list records exactly those three in order. -/
theorem construct_ok_inv (name : String) (args : Args) (c : RealtimeLambdaSubscriber)
    (hc : (construct name args).2 = Except.ok c) :
    createFunction name args = Except.ok c.fn ∧
    c.rule = createRule name args c.fn ∧
    c.permission = createPermission name c.fn c.rule ∧
    c.name = name ∧
    (construct name args).1 =
      [ChildNode.function c.fn, ChildNode.rule c.rule, ChildNode.permission c.permission] := by
  unfold construct at hc ⊢
  cases hfn : createFunction name args with
  | error e => rw [hfn] at hc; simp at hc
  | ok fn =>
      rw [hfn] at hc
      simp at hc
      subst hc
      simp

/-- Membership in the folded dependency set of a list of lambda actions. -/
theorem mem_lambdasDeps (ls : List LambdaAction) (x : String) :
    x ∈ lambdasDeps ls ↔ ∃ l ∈ ls, x ∈ l.functionArn.deps := by
  induction ls with
  | nil => simp [lambdasDeps]
  | cons a rest ih =>
      rw [show lambdasDeps (a :: rest) = a.functionArn.deps ∪ lambdasDeps rest from rfl]
      simp [Finset.mem_union, ih, List.mem_cons, exists_eq_or_imp]

/-- Membership in an interpolation's dependency set: exactly the union over the
deferred parts; literal segments contribute nothing. -/
theorem mem_interpolate_deps (segs : List Segment) (x : String) :
    x ∈ (interpolate segs).deps ↔ ∃ dv, Segment.part dv ∈ segs ∧ x ∈ dv.deps := by
  induction segs with
  | nil => simp [interpolate]
  | cons s rest ih =>
      rw [show (interpolate (s :: rest)).deps = Segment.deps s ∪ (interpolate rest).deps
        from rfl]
      cases s with
      | lit t => simp [Segment.deps, ih, List.mem_cons]
      | part dv0 => simp [Segment.deps, ih, List.mem_cons, exists_eq_or_imp]

/-- Appending suffixes of different lengths to the same string gives different
strings. -/
theorem append_ne_of_length_ne (s t u : String) (h : t.length ≠ u.length) :
    s ++ t ≠ s ++ u := by
  intro he
  have h2 := congrArg String.length he
  simp [String.length_append] at h2
  exact h h2

/-- The identities of the three children of a successfully constructed composite are
the composite's name suffixed with Handler, Rule and Permission. -/
theorem construct_identities (name : String) (args : Args) (c : RealtimeLambdaSubscriber)
    (hc : (construct name args).2 = Except.ok c) :
    c.fn.identity = name ++ "Handler" ∧ c.rule.identity = name ++ "Rule" ∧
    c.permission.identity = name ++ "Permission" := by
  obtain ⟨hfn, hrule, hperm, -, -⟩ := construct_ok_inv name args c hc
  obtain ⟨d, -, hfneq⟩ := createFunction_ok_inv name args c.fn hfn
  refine ⟨by rw [hfneq], ?_, ?_⟩
  · rw [hrule]; simp [createRule, declareTopicRule]
  · rw [hperm]; simp [createPermission, declarePermission]

/-! The claims. -/

/-- Claim C1: for every transform hook supplied for the topic-rule child, whatever
struct the hook returns, the final merged draft handed to the topic-rule constructor
keeps the composite-owned fields — the sql statement wired to the filter and the
lambdas entry wired to the function's ARN — equal to the composite's own defaults:
the hook's output is re-merged with the owned fields taken from the defaults. -/
theorem rule_owned_fields_reasserted (name : String) (args : Args)
    (hook : TopicRuleArgs → TopicRuleArgs)
    (hhk : args.transform.bind TransformMap.topicRule = some hook)
    (c : RealtimeLambdaSubscriber) (hc : (construct name args).2 = Except.ok c) :
    c.rule.args.sql = (ruleDefaults (normalizeFilter args) c.fn).sql ∧
    c.rule.args.lambdas = (ruleDefaults (normalizeFilter args) c.fn).lambdas := by
  obtain ⟨-, hrule, -, -, -⟩ := construct_ok_inv name args c hc
  rw [hrule]
  simp [createRule, declareTopicRule, transform, hhk]

/-- Witness for C1 at the adversarial hook, which overwrites every field of the
draft. -/
theorem rule_owned_fields_reasserted_witness :
    builtHooked.rule.args.sql =
      (ruleDefaults (normalizeFilter exampleArgsHooked) builtHooked.fn).sql ∧
    builtHooked.rule.args.lambdas =
      (ruleDefaults (normalizeFilter exampleArgsHooked) builtHooked.fn).lambdas :=
  rule_owned_fields_reasserted "My" exampleArgsHooked adversarialHook rfl builtHooked rfl

/-- Claim C2: for every name and subscriber input, constructing the composite with no
transform declares exactly three children, in the order handler, rule, permission;
the rule's draft references the function's ARN output (so the handler's identity is in
the rule's dependency set) and the permission's draft references the rule's ARN output
(so the rule's identity is in the permission's dependency set). -/
theorem three_children_dependency_chain (name : String) (args : Args)
    (hnt : args.transform = none)
    (c : RealtimeLambdaSubscriber) (hc : (construct name args).2 = Except.ok c) :
    (construct name args).1 =
      [ChildNode.function c.fn, ChildNode.rule c.rule, ChildNode.permission c.permission] ∧
    c.rule.args.lambdas = [⟨c.fn.arn⟩] ∧
    c.fn.identity ∈ c.rule.dependsOn ∧
    c.permission.args.sourceArn = c.rule.arn ∧
    c.rule.identity ∈ c.permission.dependsOn := by
  obtain ⟨-, hrule, hperm, -, hlist⟩ := construct_ok_inv name args c hc
  refine ⟨hlist, ?_, ?_, ?_, ?_⟩
  · rw [hrule]; simp [createRule, declareTopicRule, transform, hnt, ruleDefaults]
  · rw [hrule]
    simp [createRule, declareTopicRule, transform, hnt, ruleDefaults, TopicRuleArgs.deps,
      lambdasDeps, FunctionResource.arn]
  · rw [hperm]; simp [createPermission, declarePermission, permissionDefaults]
  · rw [hperm]
    simp [createPermission, declarePermission, permissionDefaults, PermissionArgs.deps,
      TopicRule.arn]

/-- Witness for C2 at a concrete subscriber and no transform. -/
theorem three_children_dependency_chain_witness :
    (construct "My" exampleArgs).1 =
      [ChildNode.function builtPlain.fn, ChildNode.rule builtPlain.rule,
       ChildNode.permission builtPlain.permission] ∧
    builtPlain.rule.args.lambdas = [⟨builtPlain.fn.arn⟩] ∧
    builtPlain.fn.identity ∈ builtPlain.rule.dependsOn ∧
    builtPlain.permission.args.sourceArn = builtPlain.rule.arn ∧
    builtPlain.rule.identity ∈ builtPlain.permission.dependsOn :=
  three_children_dependency_chain "My" exampleArgs rfl builtPlain rfl

/-- Claim C3: with no filter supplied the normalized filter is the deferred wildcard
sentinel and the rule's match pattern resolves inside the sql to the wildcard; with a
plain filter supplied the normalized filter is that exact string deferred, and the sql
resolves to exactly that pattern.  The re-asserted ownership of `sql` makes this hold
for every transform hook as well. -/
theorem filter_default_and_explicit (name : String) (args : Args)
    (c : RealtimeLambdaSubscriber) (hc : (construct name args).2 = Except.ok c) :
    (args.filter = none →
      normalizeFilter args = ⟨"#", ∅⟩ ∧ c.rule.args.sql.value = "SELECT * FROM '#'") ∧
    (∀ f, args.filter = some (Input.plain f) →
      normalizeFilter args = ⟨f, ∅⟩ ∧
      c.rule.args.sql.value = "SELECT * FROM '" ++ f ++ "'") := by
  obtain ⟨-, hrule, -, -, -⟩ := construct_ok_inv name args c hc
  have hsql : c.rule.args.sql = (ruleDefaults (normalizeFilter args) c.fn).sql := by
    rw [hrule]
    cases hhk : args.transform.bind TransformMap.topicRule with
    | none => simp [createRule, declareTopicRule, transform, hhk]
    | some h => simp [createRule, declareTopicRule, transform, hhk]
  constructor
  · intro hf
    have hnorm : normalizeFilter args = ⟨"#", ∅⟩ := by
      simp [normalizeFilter, hf, output]
    refine ⟨hnorm, ?_⟩
    rw [hsql]
    simp [ruleDefaults, interpolate, hnorm, Segment.text, String.join]
  · intro f hf
    have hnorm : normalizeFilter args = ⟨f, ∅⟩ := by
      simp [normalizeFilter, hf, output]
    refine ⟨hnorm, ?_⟩
    rw [hsql]
    simp [ruleDefaults, interpolate, hnorm, Segment.text, String.join]

/-- Witness for C3 at the explicit filter devices/+/status. -/
theorem filter_default_and_explicit_witness :
    normalizeFilter exampleArgsFiltered = ⟨"devices/+/status", ∅⟩ ∧
    builtFiltered.rule.args.sql.value = "SELECT * FROM '" ++ "devices/+/status" ++ "'" :=
  (filter_default_and_explicit "My" exampleArgsFiltered builtFiltered rfl).2
    "devices/+/status" rfl

/-- Claim C4: when the required subscriber definition is missing, construction fails
synchronously at declaration time with an error naming the missing field, the failure
is not deferred into a `DeferredValue`, and no child resource is declared: the
declared-children list is empty. -/
theorem missing_subscriber_fails_eagerly (name : String) (args : Args)
    (hsub : args.subscriber = none) :
    construct name args = ([], Except.error "subscriber is required") := by
  unfold construct createFunction FunctionResource.fromDefinition
  rw [hsub]

/-- Witness for C4 at concrete arguments with no subscriber. -/
theorem missing_subscriber_fails_eagerly_witness :
    construct "My" exampleArgsMissing = ([], Except.error "subscriber is required") :=
  missing_subscriber_fails_eagerly "My" exampleArgsMissing rfl

/-- Claim C5: the dependency set recorded for a declaring node is exactly the union of
the dependency sets of every referenced deferred value, plus any explicit
dependencies, never a proper subset; and interpolation combines deferred parts into
exactly the union of their dependency sets. -/
theorem dependency_sets_exact_union (name : String) (args : Args)
    (c : RealtimeLambdaSubscriber) (hc : (construct name args).2 = Except.ok c) :
    (∀ x, x ∈ c.rule.dependsOn ↔
       x ∈ c.rule.args.sql.deps ∨ ∃ l ∈ c.rule.args.lambdas, x ∈ l.functionArn.deps) ∧
    (∀ x, x ∈ c.permission.dependsOn ↔
       x ∈ c.permission.args.function.deps ∨ x ∈ c.permission.args.sourceArn.deps) ∧
    (∀ i a p ex x, x ∈ (declareTopicRule i a p ex).dependsOn ↔ x ∈ a.deps ∨ x ∈ ex) ∧
    (∀ segs x, x ∈ (interpolate segs).deps ↔
       ∃ dv, Segment.part dv ∈ segs ∧ x ∈ dv.deps) := by
  obtain ⟨-, hrule, hperm, -, -⟩ := construct_ok_inv name args c hc
  refine ⟨?_, ?_, ?_, mem_interpolate_deps⟩
  · intro x
    rw [hrule]
    simp [createRule, declareTopicRule, TopicRuleArgs.deps, mem_lambdasDeps]
  · intro x
    rw [hperm]
    simp [createPermission, declarePermission, PermissionArgs.deps]
  · intro i a p ex x
    simp [declareTopicRule, Finset.mem_union]

/-- Witness for C5 at the constructed example, evaluated at the handler identity. -/
theorem dependency_sets_exact_union_witness :
    "MyHandler" ∈ builtPlain.rule.dependsOn ↔
      "MyHandler" ∈ builtPlain.rule.args.sql.deps ∨
      ∃ l ∈ builtPlain.rule.args.lambdas, "MyHandler" ∈ l.functionArn.deps :=
  (dependency_sets_exact_union "My" exampleArgs builtPlain rfl).1 "MyHandler"

/-- Claim C6: the published output mapping of every composite instance has exactly the
fixed key list function, permission, rule — independent of all input values — and
every published value is one of the stored child handles, never internal
draft-merging state. -/
theorem nodes_fixed_keys (c : RealtimeLambdaSubscriber) :
    (RealtimeLambdaSubscriber.nodes c).map Prod.fst = ["function", "permission", "rule"] ∧
    ∀ p ∈ RealtimeLambdaSubscriber.nodes c,
      p.2 = ChildNode.function c.fn ∨ p.2 = ChildNode.permission c.permission ∨
      p.2 = ChildNode.rule c.rule := by
  refine ⟨rfl, ?_⟩
  intro p hp
  simp [RealtimeLambdaSubscriber.nodes] at hp
  rcases hp with h | h | h <;> simp [h]

/-- Claim C7: applying the transform composition with an identity hook equals applying
no hook at all, and with no hook the defaults are returned unchanged. -/
theorem transform_identity_and_absent :
    (∀ d, transform (some (fun a => a)) d = transform none d) ∧
    (∀ d, transform none d = d) :=
  ⟨fun _ => rfl, fun _ => rfl⟩

/-- Claim C8: every child node of a successfully constructed composite has the
composite as its exclusive parent, each child is declared exactly once (the three
declared identities are pairwise distinct), and the stored references fn, rule and
permission are exactly the once-declared nodes, assigned at construction. -/
theorem children_write_once_exclusive_parent (name : String) (args : Args)
    (c : RealtimeLambdaSubscriber) (hc : (construct name args).2 = Except.ok c) :
    c.fn.parent = name ∧ c.rule.parent = name ∧ c.permission.parent = name ∧
    (construct name args).1 =
      [ChildNode.function c.fn, ChildNode.rule c.rule, ChildNode.permission c.permission] ∧
    ((construct name args).1.map ChildNode.identity).Nodup := by
  obtain ⟨hfn, hrule, hperm, -, hlist⟩ := construct_ok_inv name args c hc
  obtain ⟨d, -, hfneq⟩ := createFunction_ok_inv name args c.fn hfn
  obtain ⟨hid1, hid2, hid3⟩ := construct_identities name args c hc
  refine ⟨by rw [hfneq], ?_, ?_, hlist, ?_⟩
  · rw [hrule]; simp [createRule, declareTopicRule]
  · rw [hperm]; simp [createPermission, declarePermission]
  · rw [hlist]
    simp [ChildNode.identity, hid1, hid2, hid3, List.nodup_cons]
    refine ⟨⟨?_, ?_⟩, ?_⟩
    · exact append_ne_of_length_ne name "Handler" "Rule" (by decide)
    · exact append_ne_of_length_ne name "Handler" "Permission" (by decide)
    · exact append_ne_of_length_ne name "Rule" "Permission" (by decide)

/-- Witness for C8 at the concrete example composite. -/
theorem children_write_once_exclusive_parent_witness :
    builtPlain.fn.parent = "My" ∧ builtPlain.rule.parent = "My" ∧
    builtPlain.permission.parent = "My" ∧
    (construct "My" exampleArgs).1 =
      [ChildNode.function builtPlain.fn, ChildNode.rule builtPlain.rule,
       ChildNode.permission builtPlain.permission] ∧
    ((construct "My" exampleArgs).1.map ChildNode.identity).Nodup :=
  children_write_once_exclusive_parent "My" exampleArgs builtPlain rfl

/-- Claim C9: for every input and transform map, the permission draft is fixed up to
wiring: the action is lambda:InvokeFunction, the principal is iot.amazonaws.com, the
function field is the handler's engine-resolved name, and the sourceArn is the rule's
ARN; no transform hook is applied to the permission. -/
theorem permission_draft_fixed (name : String) (args : Args)
    (c : RealtimeLambdaSubscriber) (hc : (construct name args).2 = Except.ok c) :
    c.permission.args.action = "lambda:InvokeFunction" ∧
    c.permission.args.principal = "iot.amazonaws.com" ∧
    c.permission.args.function = c.fn.name ∧
    c.permission.args.sourceArn = c.rule.arn := by
  obtain ⟨-, -, hperm, -, -⟩ := construct_ok_inv name args c hc
  rw [hperm]
  simp [createPermission, declarePermission, permissionDefaults]

/-- Witness for C9 at the concrete example composite. -/
theorem permission_draft_fixed_witness :
    builtPlain.permission.args.action = "lambda:InvokeFunction" ∧
    builtPlain.permission.args.principal = "iot.amazonaws.com" ∧
    builtPlain.permission.args.function = builtPlain.fn.name ∧
    builtPlain.permission.args.sourceArn = builtPlain.rule.arn :=
  permission_draft_fixed "My" exampleArgs builtPlain rfl

/-- Claim C10: child identities depend only on the composite's name and are exactly
the name suffixed with Handler, Rule and Permission; any two argument sets yield the
same child identities. -/
theorem child_identities_deterministic (name : String) (a1 a2 : Args)
    (c1 c2 : RealtimeLambdaSubscriber)
    (h1 : (construct name a1).2 = Except.ok c1)
    (h2 : (construct name a2).2 = Except.ok c2) :
    c1.fn.identity = name ++ "Handler" ∧ c1.rule.identity = name ++ "Rule" ∧
    c1.permission.identity = name ++ "Permission" ∧
    c1.fn.identity = c2.fn.identity ∧ c1.rule.identity = c2.rule.identity ∧
    c1.permission.identity = c2.permission.identity := by
  obtain ⟨ha1, ha2, ha3⟩ := construct_identities name a1 c1 h1
  obtain ⟨hb1, hb2, hb3⟩ := construct_identities name a2 c2 h2
  exact ⟨ha1, ha2, ha3, by rw [ha1, hb1], by rw [ha2, hb2], by rw [ha3, hb3]⟩

/-- Witness for C10 at two different argument sets. -/
theorem child_identities_deterministic_witness :
    builtPlain.fn.identity = "My" ++ "Handler" ∧
    builtPlain.rule.identity = "My" ++ "Rule" ∧
    builtPlain.permission.identity = "My" ++ "Permission" ∧
    builtPlain.fn.identity = builtFiltered.fn.identity ∧
    builtPlain.rule.identity = builtFiltered.rule.identity ∧
    builtPlain.permission.identity = builtFiltered.permission.identity :=
  child_identities_deterministic "My" exampleArgs exampleArgsFiltered builtPlain
    builtFiltered rfl rfl
